import Mathlib

/-
Shallow embedding of src/healthcare_db.py (class HealthcareDatabase), a
SQLite-backed data-access layer over three tables: patients, medical_records
and appointments.

Modelling conventions, each read off the source and SQLite's documented
semantics:

* A SQLite row is a tuple of nullable cells, so nullable TEXT columns become
  Option String.  INTEGER PRIMARY KEY AUTOINCREMENT columns become Int
  together with a per-table next-id counter in the database state; the
  lastrowid returned by a successful insert is the stored id.
* The source never issues PRAGMA foreign_keys = ON, and SQLite does not
  enforce declared FOREIGN KEY clauses without it, so inserts do not check
  that the referenced patient exists.
* A SQL CHECK (col IN (...)) passes when the cell is NULL (the comparison
  yields NULL, which is not a violation); UNIQUE ignores NULL values.
* sqlite3 exceptions on the write paths are caught by the source and turned
  into the sentinel -1 (inserts) or False (the status update), leaving the
  state unchanged: a failed single statement changes nothing.
* DATETIME values of the appointments table are modelled as integers
  (seconds).  For the ISO-formatted text the source stores, SQLite text
  comparison orders exactly like the underlying timestamp, and
  datetime('now', '+N days') adds N * 86400 seconds.  A negative N makes the
  source's modifier string invalid, so the BETWEEN yields no rows, exactly as
  the inverted numeric window does here.
* DATE columns of the other tables stay String; SQLite compares TEXT
  bytewise, which the String linear order mirrors on these dates.
-/

namespace HealthcareDatabase

/-- CHECK(gender IN ('Male', 'Female', 'Other')) value list. -/
def genderValues : List String := ["Male", "Female", "Other"]

/-- CHECK(blood_type IN (...)) value list. -/
def bloodTypeValues : List String := ["A+", "A-", "B+", "B-", "AB+", "AB-", "O+", "O-"]

/-- CHECK(status IN ('Scheduled', 'Completed', 'Cancelled')) value list. -/
def statusValues : List String := ["Scheduled", "Completed", "Cancelled"]

/-- A row of the patients table.  Only patient_id is non-nullable by type
(INTEGER PRIMARY KEY); every TEXT column is a nullable cell, with NOT NULL
enforced (where declared) at insert time. -/
structure PatientRow where
  patient_id : Int
  first_name : Option String
  last_name : Option String
  date_of_birth : Option String
  gender : Option String
  phone : Option String
  email : Option String
  address : Option String
  blood_type : Option String
deriving DecidableEq

/-- A row of the medical_records table.  patient_id and visit_date come from
non-optional typed Python parameters, hence never NULL. -/
structure MedicalRecordRow where
  record_id : Int
  patient_id : Int
  visit_date : String
  diagnosis : Option String
  treatment : Option String
  medications : Option String
  notes : Option String
deriving DecidableEq

/-- A row of the appointments table.  appointment_date comes from a
non-optional typed Python parameter; purpose and status are nullable cells. -/
structure AppointmentRow where
  appointment_id : Int
  patient_id : Int
  appointment_date : Int
  purpose : Option String
  status : Option String
deriving DecidableEq

/-- The database state: the three tables' contents, one existence flag per
table (CREATE TABLE IF NOT EXISTS), and the AUTOINCREMENT counters. -/
structure DB where
  patientsTableExists : Bool
  medicalRecordsTableExists : Bool
  appointmentsTableExists : Bool
  patients : List PatientRow
  medical_records : List MedicalRecordRow
  appointments : List AppointmentRow
  nextPatientId : Int
  nextRecordId : Int
  nextAppointmentId : Int
deriving DecidableEq

/-- CREATE TABLE IF NOT EXISTS patients: a fresh table is empty with its
AUTOINCREMENT sequence at 1; an existing table is untouched. -/
def createPatientsTable (db : DB) : DB :=
  if db.patientsTableExists then db
  else { db with patientsTableExists := true, patients := [], nextPatientId := 1 }

/-- CREATE TABLE IF NOT EXISTS medical_records. -/
def createMedicalRecordsTable (db : DB) : DB :=
  if db.medicalRecordsTableExists then db
  else { db with medicalRecordsTableExists := true, medical_records := [], nextRecordId := 1 }

/-- CREATE TABLE IF NOT EXISTS appointments. -/
def createAppointmentsTable (db : DB) : DB :=
  if db.appointmentsTableExists then db
  else { db with appointmentsTableExists := true, appointments := [], nextAppointmentId := 1 }

/-- HealthcareDatabase._create_tables: the three CREATE TABLE IF NOT EXISTS
statements in source order, then commit. -/
def _create_tables (db : DB) : DB :=
  createAppointmentsTable (createMedicalRecordsTable (createPatientsTable db))

/-- SQL CHECK (col IN vals): a NULL cell passes (the IN comparison yields
NULL, which does not violate the constraint). -/
def checkIn (vals : List String) : Option String → Bool
  | none => true
  | some v => vals.contains v

/-- UNIQUE constraint on patients.email: only non-NULL values conflict. -/
def emailFree (db : DB) : Option String → Bool
  | none => true
  | some e => db.patients.all (fun p => p.email != some e)

/-- HealthcareDatabase.add_patient: INSERT INTO patients; an IntegrityError
(NOT NULL on first_name, last_name, date_of_birth; the two CHECKs; UNIQUE
email) is caught and yields the sentinel -1 with the state unchanged;
otherwise the row is appended and its lastrowid returned. -/
def add_patient (db : DB) (first_name last_name date_of_birth gender phone
    email address blood_type : Option String) : Int × DB :=
  if first_name.isSome && last_name.isSome && date_of_birth.isSome
      && checkIn genderValues gender && checkIn bloodTypeValues blood_type
      && emailFree db email then
    (db.nextPatientId,
      { db with
        patients := db.patients ++
          [⟨db.nextPatientId, first_name, last_name, date_of_birth, gender,
            phone, email, address, blood_type⟩],
        nextPatientId := db.nextPatientId + 1 })
  else
    (-1, db)

/-- HealthcareDatabase.add_medical_record: INSERT INTO medical_records.
patient_id and visit_date are non-optional typed arguments, and the declared
FOREIGN KEY is not enforced (no PRAGMA foreign_keys), so no constraint can
fire: the insert always succeeds. -/
def add_medical_record (db : DB) (patient_id : Int) (visit_date : String)
    (diagnosis treatment medications notes : Option String) : Int × DB :=
  (db.nextRecordId,
    { db with
      medical_records := db.medical_records ++
        [⟨db.nextRecordId, patient_id, visit_date, diagnosis, treatment,
          medications, notes⟩],
      nextRecordId := db.nextRecordId + 1 })

/-- HealthcareDatabase.schedule_appointment: INSERT INTO appointments; only
the status CHECK can fire (the FOREIGN KEY is unenforced), it is caught and
yields -1. -/
def schedule_appointment (db : DB) (patient_id : Int) (appointment_date : Int)
    (purpose : String) (status : String) : Int × DB :=
  if checkIn statusValues (some status) then
    (db.nextAppointmentId,
      { db with
        appointments := db.appointments ++
          [⟨db.nextAppointmentId, patient_id, appointment_date, some purpose,
            some status⟩],
        nextAppointmentId := db.nextAppointmentId + 1 })
  else
    (-1, db)

/-- HealthcareDatabase.get_patient_by_id: SELECT * FROM patients WHERE
patient_id = ?, fetchone; None when no row matches. -/
def get_patient_by_id (db : DB) (patient_id : Int) : Option PatientRow :=
  db.patients.find? (fun p => p.patient_id == patient_id)

/-- ASCII lower-casing: the default NOCASE folding of SQLite LIKE applies to
ASCII letters only. -/
def lowerAscii (c : Char) : Char :=
  if 'A' ≤ c && c ≤ 'Z' then Char.ofNat (c.toNat + 32) else c

/-- SQLite LIKE matching (no ESCAPE clause): percent matches any run of
characters, underscore matches one character, any other character compares
ASCII-case-insensitively. -/
def likeMatch : List Char → List Char → Bool
  | [], s => s.isEmpty
  | '%' :: ps, s => s.tails.any (fun t => likeMatch ps t)
  | '_' :: ps, s =>
    match s with
    | [] => false
    | _ :: s' => likeMatch ps s'
  | p :: ps, s =>
    match s with
    | [] => false
    | c :: s' => (lowerAscii p == lowerAscii c) && likeMatch ps s'

/-- The source's search pattern for the name argument: f-string percent name
percent. -/
def likePattern (name : String) : List Char := '%' :: (name.data ++ ['%'])

/-- SQL: column LIKE pattern is not satisfied when the column is NULL. -/
def optLike (pat : List Char) : Option String → Bool
  | none => false
  | some s => likeMatch pat s.data

/-- Python truthiness of an optional string argument (the source's if name
and if gender tests): None and the empty string are falsy. -/
def truthy : Option String → Bool
  | none => false
  | some s => s != ""

/-- HealthcareDatabase.search_patients: the WHERE clause is built up from the
truthy arguments; name adds first_name LIKE percent-name-percent OR last_name
LIKE percent-name-percent, gender adds gender = ?. -/
def search_patients (db : DB) (name gender : Option String) : List PatientRow :=
  let rows := db.patients
  let rows := if truthy name then
      rows.filter (fun p =>
        optLike (likePattern (name.getD "")) p.first_name
        || optLike (likePattern (name.getD "")) p.last_name)
    else rows
  let rows := if truthy gender then
      rows.filter (fun p => p.gender == some (gender.getD ""))
    else rows
  rows

/-- The dictionary built by get_patient_medical_history: every column of the
row except patient_id (index 1 is skipped by the source). -/
structure MedicalHistoryEntry where
  record_id : Int
  visit_date : String
  diagnosis : Option String
  treatment : Option String
  medications : Option String
  notes : Option String
deriving DecidableEq

/-- Row-to-dictionary projection of get_patient_medical_history. -/
def toHistoryEntry (r : MedicalRecordRow) : MedicalHistoryEntry :=
  ⟨r.record_id, r.visit_date, r.diagnosis, r.treatment, r.medications, r.notes⟩

/-- ORDER BY visit_date DESC: an earlier entry has the later (or equal)
date. -/
def visitDesc (a b : MedicalHistoryEntry) : Prop := b.visit_date ≤ a.visit_date

instance : DecidableRel visitDesc :=
  fun a b => inferInstanceAs (Decidable (b.visit_date ≤ a.visit_date))

instance : IsTotal MedicalHistoryEntry visitDesc :=
  ⟨fun a b => le_total b.visit_date a.visit_date⟩

instance : IsTrans MedicalHistoryEntry visitDesc :=
  ⟨fun _ _ _ h1 h2 => le_trans h2 h1⟩

/-- HealthcareDatabase.get_patient_medical_history: SELECT * FROM
medical_records WHERE patient_id = ? ORDER BY visit_date DESC, projected to
dictionaries.  The sort is modelled by a stable sort under the descending
relation; SQLite fixes the relative order of equal keys no further. -/
def get_patient_medical_history (db : DB) (patient_id : Int) :
    List MedicalHistoryEntry :=
  List.insertionSort visitDesc
    ((db.medical_records.filter (fun r => r.patient_id == patient_id)).map
      toHistoryEntry)

/-- The dictionary built by get_upcoming_appointments: appointment columns
joined with the patient's full name. -/
structure AppointmentView where
  appointment_id : Int
  patient_name : String
  appointment_date : Int
  purpose : Option String
  status : Option String
deriving DecidableEq

/-- Python f-string rendering of a possibly-NULL cell. -/
def pyStr : Option String → String
  | none => "None"
  | some s => s

/-- One joined output row of get_upcoming_appointments. -/
def mkAppointmentView (a : AppointmentRow) (p : PatientRow) : AppointmentView :=
  ⟨a.appointment_id, pyStr p.first_name ++ " " ++ pyStr p.last_name,
    a.appointment_date, a.purpose, a.status⟩

/-- ORDER BY appointment_date (ascending). -/
def apptAsc (x y : AppointmentView) : Prop :=
  x.appointment_date ≤ y.appointment_date

instance : DecidableRel apptAsc :=
  fun x y => inferInstanceAs (Decidable (x.appointment_date ≤ y.appointment_date))

instance : IsTotal AppointmentView apptAsc :=
  ⟨fun x y => le_total x.appointment_date y.appointment_date⟩

instance : IsTrans AppointmentView apptAsc :=
  ⟨fun _ _ _ h1 h2 => le_trans h1 h2⟩

/-- Seconds in a day: the step of the datetime +N days modifier in the
timestamp model. -/
def secondsPerDay : Int := 86400

/-- HealthcareDatabase.get_upcoming_appointments: appointments JOIN patients
ON equal patient_id, WHERE appointment_date BETWEEN datetime('now') AND
datetime('now', '+days_ahead days') (both bounds inclusive), ORDER BY
appointment_date ascending.  The engine clock is the now argument. -/
def get_upcoming_appointments (db : DB) (now : Int) (days_ahead : Int) :
    List AppointmentView :=
  List.insertionSort apptAsc
    ((db.appointments.filter (fun a =>
        decide (now ≤ a.appointment_date
          ∧ a.appointment_date ≤ now + days_ahead * secondsPerDay))).flatMap
      (fun a => (db.patients.filter (fun p => a.patient_id == p.patient_id)).map
        (fun p => mkAppointmentView a p)))

/-- HealthcareDatabase.update_appointment_status: UPDATE appointments SET
status = ? WHERE appointment_id = ?; returns rowcount greater than zero.  A
status outside the CHECK raises on the rows it touches; the source catches
the error and returns False with nothing changed. -/
def update_appointment_status (db : DB) (appointment_id : Int)
    (status : String) : Bool × DB :=
  let matched := db.appointments.filter (fun a => a.appointment_id == appointment_id)
  if !matched.isEmpty && !(checkIn statusValues (some status)) then
    (false, db)
  else
    (!matched.isEmpty,
      { db with
        appointments := db.appointments.map (fun a =>
          if a.appointment_id == appointment_id then { a with status := some status }
          else a) })

/-- Written from the spec's words, for comparison in claim C8: the needle
occurs in the haystack as a literal, case-sensitive substring. -/
def containsSubstr (hay needle : String) : Bool :=
  hay.data.tails.any (fun t => needle.data.isPrefixOf t)

/-- Written from the spec's words, for comparison in claim C8: the patient's
first name or last name contains the argument as a substring. -/
def specNameMatches (name : String) (p : PatientRow) : Bool :=
  (match p.first_name with | none => false | some s => containsSubstr s name)
  || (match p.last_name with | none => false | some s => containsSubstr s name)

/-- A database with the three tables created and still empty. -/
def dbC1 : DB := ⟨true, true, true, [], [], [], 1, 1, 1⟩

/-- C1 evaluated at its failing input: with no patient rows at all, adding a
medical record for patient 999 succeeds, returning lastrowid 1 and inserting
the row, where the claim requires the sentinel -1 and no inserted row.  The
source declares the FOREIGN KEY but never enables foreign-key enforcement on
the connection, so the reference to a missing patient cannot fail. -/
theorem C1_foreign_key_not_enforced :
    dbC1.patients = []
    ∧ (add_medical_record dbC1 999 "2023-01-01" none none none none).1 = 1
    ∧ (add_medical_record dbC1 999 "2023-01-01" none none none none).1 ≠ -1
    ∧ (add_medical_record dbC1 999 "2023-01-01" none none none none).2.medical_records
        = [⟨1, 999, "2023-01-01", none, none, none, none⟩] := by
  refine ⟨rfl, rfl, by decide, rfl⟩

/-- A database with the three tables created and still empty. -/
def dbC2 : DB := ⟨true, true, true, [], [], [], 1, 1, 1⟩

/-- C2 as stated is false: the gender column carries no NOT NULL constraint
and its CHECK passes on NULL, so addPatient with a NULL gender succeeds on
the empty store, returning lastrowid 1 (not -1) and adding the row. -/
theorem C2_counterexample :
    (add_patient dbC2 (some "John") (some "Doe") (some "1985-05-15")
        none none none none none).1 = 1
    ∧ (add_patient dbC2 (some "John") (some "Doe") (some "1985-05-15")
        none none none none none).1 ≠ -1
    ∧ (add_patient dbC2 (some "John") (some "Doe") (some "1985-05-15")
        none none none none none).2.patients
      = [⟨1, some "John", some "Doe", some "1985-05-15",
          none, none, none, none, none⟩] := by
  refine ⟨rfl, by decide, rfl⟩

/-- C2 amended: calling addPatient with gender absent (NULL) is accepted by
the storage boundary (the gender column has no NOT NULL constraint, and its
CHECK passes on NULL): whenever the remaining constraints hold, the call
returns the new id and appends a row whose gender is NULL. -/
theorem C2_null_gender_accepted (db : DB) (f l d : String)
    (ph em addr b : Option String)
    (hb : checkIn bloodTypeValues b = true) (he : emailFree db em = true) :
    add_patient db (some f) (some l) (some d) none ph em addr b
      = (db.nextPatientId,
         { db with
           patients := db.patients ++
             [⟨db.nextPatientId, some f, some l, some d, none, ph, em, addr, b⟩],
           nextPatientId := db.nextPatientId + 1 }) := by
  have hg : checkIn genderValues none = true := rfl
  simp [add_patient, hg, hb, he]

/-- Concrete instance of C2_null_gender_accepted on the empty store. -/
theorem C2_null_gender_accepted_witness :
    checkIn bloodTypeValues none = true
    ∧ emailFree dbC2 none = true
    ∧ add_patient dbC2 (some "John") (some "Doe") (some "1985-05-15")
        none none none none none
      = (dbC2.nextPatientId,
         { dbC2 with
           patients := dbC2.patients ++
             [⟨dbC2.nextPatientId, some "John", some "Doe", some "1985-05-15",
               none, none, none, none, none⟩],
           nextPatientId := dbC2.nextPatientId + 1 }) :=
  ⟨rfl, rfl,
    C2_null_gender_accepted dbC2 "John" "Doe" "1985-05-15" none none none none
      rfl rfl⟩

/-- C3: getPatientMedicalHistory returns exactly the medical records whose
patient_id equals the argument (as a permutation of the filtered table,
projected to the output dictionaries), sorted by visit_date descending, and
is empty when no record carries that patient_id (in particular for an
unknown patient). -/
theorem C3_medical_history_spec (db : DB) (pid : Int) :
    List.Perm (get_patient_medical_history db pid)
      ((db.medical_records.filter (fun r => r.patient_id == pid)).map toHistoryEntry)
    ∧ List.Sorted visitDesc (get_patient_medical_history db pid)
    ∧ ((∀ r ∈ db.medical_records, r.patient_id ≠ pid) →
        get_patient_medical_history db pid = []) := by
  refine ⟨List.perm_insertionSort _ _, List.sorted_insertionSort _ _, ?_⟩
  intro h
  have hf : db.medical_records.filter (fun r => r.patient_id == pid) = [] := by
    rw [List.filter_eq_nil_iff]
    intro r hr
    simpa using h r hr
  simp [get_patient_medical_history, hf]

/-- A database holding one medical record, for patient 1 only. -/
def dbC3 : DB :=
  ⟨true, true, true, [], [⟨1, 1, "2023-01-10", none, none, none, none⟩], [], 1, 2, 1⟩

/-- Concrete instance of C3_medical_history_spec: patient 5 has no records,
so the history is empty. -/
theorem C3_medical_history_spec_witness :
    (∀ r ∈ dbC3.medical_records, r.patient_id ≠ 5)
    ∧ get_patient_medical_history dbC3 5 = [] :=
  ⟨by decide, (C3_medical_history_spec dbC3 5).2.2 (by decide)⟩

/-- C4: getUpcomingAppointments returns, sorted ascending by
appointment_date, exactly the joined views of the appointments whose date
lies inside the inclusive window from now to now plus daysAhead days (now
being the engine clock at query time, a parameter of the model); dates
before now or beyond the window contribute nothing. -/
theorem C4_upcoming_window_spec (db : DB) (now days_ahead : Int) :
    List.Sorted apptAsc (get_upcoming_appointments db now days_ahead)
    ∧ ∀ v, v ∈ get_upcoming_appointments db now days_ahead ↔
        ∃ a ∈ db.appointments, ∃ p ∈ db.patients,
          a.patient_id = p.patient_id
          ∧ now ≤ a.appointment_date
          ∧ a.appointment_date ≤ now + days_ahead * secondsPerDay
          ∧ v = mkAppointmentView a p := by
  constructor
  · exact List.sorted_insertionSort _ _
  · intro v
    simp only [get_upcoming_appointments, List.mem_insertionSort, List.mem_flatMap,
      List.mem_filter, List.mem_map, decide_eq_true_eq, beq_iff_eq]
    constructor
    · rintro ⟨a, ⟨ha, h1, h2⟩, p, ⟨hp, hpe⟩, rfl⟩
      exact ⟨a, ha, p, hp, hpe, h1, h2, rfl⟩
    · rintro ⟨a, ha, p, hp, hpe, h1, h2, rfl⟩
      exact ⟨a, ⟨ha, h1, h2⟩, p, ⟨hp, hpe⟩, rfl⟩

/-- C5: for a status inside the CHECK enumeration, updateAppointmentStatus
returns true exactly when some row carries the given appointment id (the
primary key makes it at most one), and false otherwise; the result is a
boolean, never an error. -/
theorem C5_update_status_spec (db : DB) (A : Int) (s : String)
    (h : s ∈ statusValues) :
    (update_appointment_status db A s).1 = true ↔
      ∃ a ∈ db.appointments, a.appointment_id = A := by
  have hc : checkIn statusValues (some s) = true := by
    simp [checkIn, h]
  unfold update_appointment_status
  simp only [hc, Bool.not_true, Bool.and_false, if_false, Bool.ite_eq_true_distrib]
  simp [List.isEmpty_iff, List.filter_eq_nil_iff]

/-- A database holding a single appointment, with id 7. -/
def dbC5 : DB :=
  ⟨true, true, true, [], [],
    [⟨7, 1, 1000, some "checkup", some "Scheduled"⟩], 1, 1, 8⟩

/-- Concrete instance of C5_update_status_spec at an existing id. -/
theorem C5_update_status_spec_witness :
    ("Completed" ∈ statusValues)
    ∧ ((update_appointment_status dbC5 7 "Completed").1 = true ↔
        ∃ a ∈ dbC5.appointments, a.appointment_id = 7) :=
  ⟨by decide, C5_update_status_spec dbC5 7 "Completed" (by decide)⟩

/-- C6: on a state holding exactly one patient with the non-null email E, a
further addPatient supplying E returns the sentinel -1, leaves the state
unchanged, and exactly one patient with email E remains. -/
theorem C6_duplicate_email_spec (db : DB) (E : String)
    (f l d g ph addr b : Option String)
    (h1 : (db.patients.filter (fun p => p.email == some E)).length = 1) :
    (add_patient db f l d g ph (some E) addr b).1 = -1
    ∧ (add_patient db f l d g ph (some E) addr b).2 = db
    ∧ ((add_patient db f l d g ph (some E) addr b).2.patients.filter
        (fun p => p.email == some E)).length = 1 := by
  have hex : ∃ p ∈ db.patients, p.email = some E := by
    have hne : db.patients.filter (fun p => p.email == some E) ≠ [] := by
      intro hnil
      rw [hnil] at h1
      simp at h1
    obtain ⟨p, hp⟩ := List.exists_mem_of_ne_nil _ hne
    rw [List.mem_filter] at hp
    exact ⟨p, hp.1, by simpa using hp.2⟩
  have hfree : emailFree db (some E) = false := by
    obtain ⟨p, hp, he⟩ := hex
    rw [emailFree]
    rw [List.all_eq_false]
    exact ⟨p, hp, by simp [he]⟩
  refine ⟨?_, ?_, ?_⟩ <;> simp [add_patient, hfree, h1]

/-- A database holding one patient whose email is jane@example.com. -/
def dbC6 : DB :=
  ⟨true, true, true,
    [⟨1, some "Jane", some "Smith", some "1990-11-22", some "Female",
      none, some "jane@example.com", none, none⟩], [], [], 2, 1, 1⟩

/-- Concrete instance of C6_duplicate_email_spec: re-using the stored email
fails and changes nothing. -/
theorem C6_duplicate_email_spec_witness :
    (dbC6.patients.filter (fun p => p.email == some "jane@example.com")).length = 1
    ∧ ((add_patient dbC6 (some "Janet") (some "Smithe") (some "1991-01-01")
          (some "Female") none (some "jane@example.com") none none).1 = -1
      ∧ (add_patient dbC6 (some "Janet") (some "Smithe") (some "1991-01-01")
          (some "Female") none (some "jane@example.com") none none).2 = dbC6
      ∧ ((add_patient dbC6 (some "Janet") (some "Smithe") (some "1991-01-01")
          (some "Female") none (some "jane@example.com") none none).2.patients.filter
            (fun p => p.email == some "jane@example.com")).length = 1) :=
  ⟨by decide,
    C6_duplicate_email_spec dbC6 "jane@example.com" (some "Janet") (some "Smithe")
      (some "1991-01-01") (some "Female") none none none (by decide)⟩

/-- C7: when addPatient succeeds (the returned id is not the sentinel) on a
state whose rows all differ from the fresh AUTOINCREMENT id,
getPatientById of the returned id yields a record whose cells equal the
inputs supplied at creation; and on any state, getPatientById of an id no
row carries yields the explicit not-found value None. -/
theorem C7_roundtrip_spec (db : DB) (f l d : String) (g ph em addr b : Option String)
    (hfresh : ∀ p ∈ db.patients, p.patient_id ≠ db.nextPatientId)
    (hsucc : (add_patient db (some f) (some l) (some d) g ph em addr b).1 ≠ -1) :
    (get_patient_by_id (add_patient db (some f) (some l) (some d) g ph em addr b).2
        (add_patient db (some f) (some l) (some d) g ph em addr b).1
      = some ⟨db.nextPatientId, some f, some l, some d, g, ph, em, addr, b⟩)
    ∧ ∀ (db2 : DB) (i : Int), (∀ p ∈ db2.patients, p.patient_id ≠ i) →
        get_patient_by_id db2 i = none := by
  constructor
  · unfold get_patient_by_id
    unfold add_patient at hsucc ⊢
    split
    next hcond =>
      rw [List.find?_append]
      have h1 : db.patients.find? (fun p => p.patient_id == db.nextPatientId) = none := by
        rw [List.find?_eq_none]
        intro p hp
        simpa using hfresh p hp
      rw [h1]
      simp
    next hcond =>
      rw [if_neg hcond] at hsucc
      simp at hsucc
  · intro db2 i h
    unfold get_patient_by_id
    rw [List.find?_eq_none]
    intro p hp
    simpa using h p hp

/-- A database with the three tables created and still empty. -/
def dbC7 : DB := ⟨true, true, true, [], [], [], 1, 1, 1⟩

/-- Concrete instance of C7_roundtrip_spec on the empty store. -/
theorem C7_roundtrip_spec_witness :
    (∀ p ∈ dbC7.patients, p.patient_id ≠ dbC7.nextPatientId)
    ∧ ((add_patient dbC7 (some "John") (some "Doe") (some "1985-05-15")
          (some "Male") none none none none).1 ≠ -1)
    ∧ ((get_patient_by_id
          (add_patient dbC7 (some "John") (some "Doe") (some "1985-05-15")
            (some "Male") none none none none).2
          (add_patient dbC7 (some "John") (some "Doe") (some "1985-05-15")
            (some "Male") none none none none).1
        = some ⟨dbC7.nextPatientId, some "John", some "Doe", some "1985-05-15",
            some "Male", none, none, none, none⟩)
      ∧ ∀ (db2 : DB) (i : Int), (∀ p ∈ db2.patients, p.patient_id ≠ i) →
          get_patient_by_id db2 i = none) :=
  ⟨by decide, by decide,
    C7_roundtrip_spec dbC7 "John" "Doe" "1985-05-15" (some "Male") none none none none
      (by decide) (by decide)⟩

/-- A patient whose names are upper-case ALICE X. -/
def patC8 : PatientRow :=
  ⟨1, some "ALICE", some "X", some "1990-01-01", some "Female", none, none, none, none⟩

/-- A database holding only that patient. -/
def dbC8 : DB := ⟨true, true, true, [patC8], [], [], 2, 1, 1⟩

/-- C8 as stated is false: SQLite LIKE folds ASCII case, so searching for
the name alice selects a patient neither of whose names contains alice as a
(case-sensitive) substring, contradicting the claim that the name filter
selects exactly the substring matches. -/
theorem C8_counterexample :
    patC8 ∈ search_patients dbC8 (some "alice") none
    ∧ specNameMatches "alice" patC8 = false := by
  constructor
  · decide
  · decide

/-- C8 amended: the two optional filters are conjunctive; a supplied
non-empty name selects exactly the patients one of whose names matches it
per SQLite LIKE semantics (ASCII-case-insensitive, with percent and
underscore wildcards) wrapped in percent signs; a supplied non-empty gender
selects exactly the patients whose gender cell equals it; with neither
filter, every patient is returned. -/
theorem C8_search_semantics (db : DB) (n g : String) (hn : n ≠ "") (hg : g ≠ "") :
    search_patients db (some n) (some g)
      = db.patients.filter (fun p =>
          (optLike (likePattern n) p.first_name || optLike (likePattern n) p.last_name)
          && p.gender == some g)
    ∧ search_patients db (some n) none
      = db.patients.filter (fun p =>
          optLike (likePattern n) p.first_name || optLike (likePattern n) p.last_name)
    ∧ search_patients db none (some g)
      = db.patients.filter (fun p => p.gender == some g)
    ∧ search_patients db none none = db.patients := by
  refine ⟨?_, ?_, ?_, ?_⟩ <;>
    simp [search_patients, truthy, hn, hg, List.filter_filter]
  exact List.filter_congr (fun p _ => by rw [Bool.and_comm])

/-- A database holding the two demo patients Doe and Smith. -/
def dbC8w : DB :=
  ⟨true, true, true,
    [⟨1, some "John", some "Doe", some "1985-05-15", some "Male",
      none, none, none, none⟩,
     ⟨2, some "Jane", some "Smith", some "1990-11-22", some "Female",
      none, none, none, none⟩], [], [], 3, 1, 1⟩

/-- Concrete instance of C8_search_semantics at the spec's own example
filters Doe and Female. -/
theorem C8_search_semantics_witness :
    ("Doe" ≠ "") ∧ ("Female" ≠ "")
    ∧ (search_patients dbC8w (some "Doe") (some "Female")
        = dbC8w.patients.filter (fun p =>
            (optLike (likePattern "Doe") p.first_name
              || optLike (likePattern "Doe") p.last_name)
            && p.gender == some "Female")
      ∧ search_patients dbC8w (some "Doe") none
        = dbC8w.patients.filter (fun p =>
            optLike (likePattern "Doe") p.first_name
              || optLike (likePattern "Doe") p.last_name)
      ∧ search_patients dbC8w none (some "Female")
        = dbC8w.patients.filter (fun p => p.gender == some "Female")
      ∧ search_patients dbC8w none none = dbC8w.patients) :=
  ⟨by decide, by decide, C8_search_semantics dbC8w "Doe" "Female" (by decide) (by decide)⟩

/-- C9: schema creation is idempotent: a second run equals a single run, and
on a store where the three tables already exist it is a no-op, leaving every
table's data and sequence untouched (and no error is possible: the
operation is total). -/
theorem C9_schema_idempotent (db : DB) :
    _create_tables (_create_tables db) = _create_tables db
    ∧ (db.patientsTableExists = true → db.medicalRecordsTableExists = true →
        db.appointmentsTableExists = true → _create_tables db = db) := by
  obtain ⟨pt, mt, a3, ps, ms, as3, n1, n2, n3⟩ := db
  constructor
  · cases pt <;> cases mt <;> cases a3 <;>
      simp [_create_tables, createPatientsTable, createMedicalRecordsTable,
        createAppointmentsTable]
  · intro h1 h2 h3
    simp at h1 h2 h3
    subst h1
    subst h2
    subst h3
    simp [_create_tables, createPatientsTable, createMedicalRecordsTable,
      createAppointmentsTable]

/-- A database whose three tables exist and hold one patient. -/
def dbC9 : DB :=
  ⟨true, true, true,
    [⟨1, some "A", some "B", some "1990-01-01", some "Other", none, none, none, none⟩],
    [], [], 2, 1, 1⟩

/-- Concrete instance of C9_schema_idempotent: re-running schema creation on
a populated store changes nothing. -/
theorem C9_schema_idempotent_witness :
    dbC9.patientsTableExists = true
    ∧ dbC9.medicalRecordsTableExists = true
    ∧ dbC9.appointmentsTableExists = true
    ∧ _create_tables dbC9 = dbC9 :=
  ⟨rfl, rfl, rfl, (C9_schema_idempotent dbC9).2 rfl rfl rfl⟩

/-- C10: an empty-string argument is Python-falsy, so searchPatients treats
it as an absent filter: both the empty name and the empty gender return
every patient, and the empty gender does not restrict to rows whose gender
is the empty string. -/
theorem C10_empty_string_filters (db : DB) :
    search_patients db (some "") none = db.patients
    ∧ search_patients db none (some "") = db.patients := by
  constructor <;> simp [search_patients, truthy]

end HealthcareDatabase
